import Mathlib

/-!
Verification development for the CDR price fetcher (`cdr.py`).

The program downloads daily price observations for a configured list of
symbols, transforms them into (Symbol, Close, Date) records, and writes
them to a CSV file for import into Quicken.  The shallow embedding below
mirrors `CdrPrices.load_yahoo_prices` and the `__main__` driver:

* the per-symbol try/except loop (lines 54-66) becomes a fold over the
  symbol list with an explicit accumulator state (records, log lines,
  whether the accumulated frame has acquired columns, request count);
* the provider (`yf.download` together with the in-try transform steps)
  is an oracle `fetch : String → FetchResult`: a successful download and
  transform yields the observation rows, any raised exception yields the
  exception class name;
* a download failure for every symbol leaves `dfp` as the columnless
  `pd.DataFrame()`, so the column re-ordering `dfp[['Symbol','Close','Date']]`
  at line 68 raises an uncaught `KeyError`; the embedding models the code
  after the loop as `Except PyError ...`;
* prices are idealised as rationals (ℚ); a pandas `NaN` close is `none`;
  `np.round(x, decimals=3)` becomes round-half-to-even onto multiples of
  1/1000, and the `str(float)` rendering used by `to_csv` becomes the
  minimal decimal form (trailing zeros stripped, at least one fractional
  digit), which agrees with Python for decimals exactly representable in
  binary;
* note that line 60 `df.dropna(axis=0)` discards its result (no
  `inplace=True`, no assignment), so the embedding keeps rows whose close
  is missing — exactly as the code does;
* `to_csv(..., lineterminator='', header=False, index=False)` appends the
  empty string after each rendered row, so rows are concatenated with no
  separator;
* paths: the truncation target (line 44) is
  `Path(__file__).parent.absolute() / Path(self.quicken_csv_file)` while
  `to_csv(self.quicken_csv_file, ...)` (line 71) resolves the same name
  against the process working directory; `PyPath` and the two resolution
  functions mirror `pathlib` joining (an absolute right operand replaces
  the base).
-/

namespace Cdr

/-- A calendar date as carried by the provider's index column. -/
structure Date where
  year : Nat
  month : Nat
  day : Nat
deriving DecidableEq, Repr

/-- Sort key used to speak about chronological order: lexicographic
(year, month, day) packed into one natural number. -/
def Date.key (d : Date) : Nat := d.year * 10000 + d.month * 100 + d.day

/-- One observation of the provider's raw series (a row of the frame
returned by `yf.download` after `reset_index`): trade date plus the price
fields.  Fields other than `Date` and `Close` are dropped at line 58 and
never reach the output.  A missing value (pandas `NaN`) is `none`. -/
structure RawRow where
  date : Date
  openPrice : Option ℚ
  high : Option ℚ
  low : Option ℚ
  close : Option ℚ
  adjClose : Option ℚ
  volume : Option ℚ
deriving DecidableEq, Repr

/-- Result of the body of the `try:` block for one symbol: either the
transformed rows of a successful download, or the class name of the
exception that was raised (`err.__class__`, printed at line 64). -/
inductive FetchResult where
  | ok (rows : List RawRow)
  | err (ekind : String)
deriving DecidableEq, Repr

/-- Whether a fetch succeeded. -/
def FetchResult.isOk : FetchResult → Bool
  | .ok _ => true
  | .err _ => false

/-- One row of the final frame `dfp`: columns `Symbol`, `Close`, `Date`
(the order established at line 68).  `close` is still `none` for a
missing closing price, because line 60 `df.dropna(axis=0)` discards its
result and therefore filters nothing. -/
structure PriceRecord where
  symbol : String
  close : Option ℚ
  date : Date
deriving DecidableEq, Repr

/-- Loop accumulator for lines 51-66: `records` is the content of `dfp`,
`logs` the console lines printed so far, `hasCols` whether some
`pd.concat` has given `dfp` its columns (true exactly when at least one
symbol has succeeded, even with zero rows), `fetchCount` the number of
provider requests issued. -/
structure LoopState where
  records : List PriceRecord
  logs : List String
  hasCols : Bool
  fetchCount : Nat
deriving DecidableEq, Repr

/-- The body of the `for symbol in self.symbols:` loop (lines 54-66).
On success the transformed rows are concatenated onto `dfp` and a success
line is printed; on failure the exception class and an error line naming
the symbol are printed and `dfp` is untouched. -/
def stepSymbol (fetch : String → FetchResult) (st : LoopState) (s : String) : LoopState :=
  match fetch s with
  | .ok rows =>
      { records := st.records ++ rows.map (fun r => { symbol := s, close := r.close, date := r.date })
        logs := st.logs ++ ["Loaded Prices for: " ++ s]
        hasCols := true
        fetchCount := st.fetchCount + 1 }
  | .err k =>
      { records := st.records
        logs := st.logs ++ [k, "Error Retrieving Data for: " ++ s]
        hasCols := st.hasCols
        fetchCount := st.fetchCount + 1 }

/-- The whole fetch loop, starting from the empty frame `pd.DataFrame()`. -/
def runLoop (fetch : String → FetchResult) (symbols : List String) : LoopState :=
  symbols.foldl (stepSymbol fetch) { records := [], logs := [], hasCols := false, fetchCount := 0 }

/-- The records contributed by one symbol: the transformed rows if its
fetch succeeded, nothing if it failed. -/
def recordsOf (fetch : String → FetchResult) (s : String) : List PriceRecord :=
  match fetch s with
  | .ok rows => rows.map (fun r => { symbol := s, close := r.close, date := r.date })
  | .err _ => []

/-- The console lines contributed by one symbol. -/
def logsOf (fetch : String → FetchResult) (s : String) : List String :=
  match fetch s with
  | .ok _ => ["Loaded Prices for: " ++ s]
  | .err k => [k, "Error Retrieving Data for: " ++ s]

/-- The line printed at line 67 after the loop: it interpolates
`len(self.symbols)`, the number of configured symbols. -/
def finalReport (symbols : List String) : String :=
  "Loaded Prices from Yahoo for " ++ toString symbols.length ++ " symbols"

/-- Number of configured symbols whose fetch succeeded (not printed by
the program; used to compare against the report). -/
def successCount (fetch : String → FetchResult) (symbols : List String) : Nat :=
  (symbols.filter (fun s => (fetch s).isOk)).length

/-- The decimal digit character for a digit value. -/
def digitChar (n : Nat) : Char :=
  if n = 0 then '0'
  else if n = 1 then '1'
  else if n = 2 then '2'
  else if n = 3 then '3'
  else if n = 4 then '4'
  else if n = 5 then '5'
  else if n = 6 then '6'
  else if n = 7 then '7'
  else if n = 8 then '8'
  else '9'

/-- The number of thousandths of `np.round(q, decimals=3)` (line 70),
idealised on rationals: `1000 * q` rounded to the nearest integer with
ties to even, computed with integer arithmetic on the reduced fraction.
Writing `q = num / den`, `1000 * q = m / den` with `m = 1000 * num`;
`n = m.fdiv den` is its floor and `r = m - n * den` the remainder, so
the fractional part `r / den` is below, above, or exactly one half
according as `2 * r` compares with `den`. -/
def thousandths (q : ℚ) : ℤ :=
  let d : ℤ := (q.den : ℤ)
  let m : ℤ := 1000 * q.num
  let n : ℤ := m.fdiv d
  let r : ℤ := m - n * d
  if 2 * r < d then n
  else if d < 2 * r then n + 1
  else if n % 2 = 0 then n else n + 1

/-- `np.round(q, decimals=3)` (line 70) as a rational: the rounded
value itself. -/
def round3 (q : ℚ) : ℚ := (thousandths q : ℚ) / 1000

/-- The fractional digits of `str(float)` for a multiple of 1/1000 whose
numerator in thousandths has absolute value ending in `f` (0 ≤ f < 1000):
minimal form, trailing zeros stripped, at least one digit. -/
def fracChars (f : Nat) : List Char :=
  if f % 10 ≠ 0 then [digitChar (f / 100 % 10), digitChar (f / 10 % 10), digitChar (f % 10)]
  else if f / 10 % 10 ≠ 0 then [digitChar (f / 100 % 10), digitChar (f / 10 % 10)]
  else [digitChar (f / 100 % 10)]

/-- Python's `str(float)` for the value `m`/1000, as written by `to_csv`
for a rounded close: optional sign, integer part, a dot, then the
fractional digits in minimal form. -/
def floatStr (m : ℤ) : String :=
  (if m < 0 then "-" else "")
    ++ toString (m.natAbs / 1000) ++ "." ++ String.mk (fracChars (m.natAbs % 1000))

/-- The `Close` field of one CSV row: `np.round(..., 3)` then `str`.
A missing close (`NaN`) is rendered as the empty field (`to_csv`'s
default `na_rep=''`); `np.round` maps `NaN` to `NaN`. -/
def renderClose : Option ℚ → String
  | none => ""
  | some q => floatStr (thousandths q)

/-- Two-digit zero-padded field of `strftime` (`%d`, `%m`); faithful for
the valid calendar values (< 100) that a provider date carries. -/
def pad2 (n : Nat) : String := String.mk [digitChar (n / 10 % 10), digitChar (n % 10)]

/-- Four-digit zero-padded year of `strftime` (`%Y`); faithful for years
below 10000. -/
def pad4 (n : Nat) : String :=
  String.mk [digitChar (n / 1000 % 10), digitChar (n / 100 % 10),
             digitChar (n / 10 % 10), digitChar (n % 10)]

/-- `strftime("%d/%m/%Y")` (line 69). -/
def renderDate (d : Date) : String := pad2 d.day ++ "/" ++ pad2 d.month ++ "/" ++ pad4 d.year

/-- The `lineterminator=''` argument passed to `to_csv` at line 71. -/
def lineTerm : String := ""

/-- One CSV row: the three fields in the column order fixed at line 68,
comma-separated. -/
def renderRow (r : PriceRecord) : String :=
  r.symbol ++ "," ++ renderClose r.close ++ "," ++ renderDate r.date

/-- The text `to_csv` writes for the frame's rows (`header=False`,
`index=False`): each rendered row followed by the configured line
terminator, which here is the empty string. -/
def csvContent (rs : List PriceRecord) : String :=
  rs.foldl (fun acc r => acc ++ renderRow r ++ lineTerm) ""

/-- The number of fractional digits a rendered field shows: the number
of characters after the last dot (all of the string when it has no
dot). -/
def fracDigitCount (s : String) : Nat :=
  (s.data.reverse.takeWhile (fun c => c != '.')).length

/-- A `pathlib`-style path: either absolute or relative, as a list of
components. -/
inductive PyPath where
  | abs (comps : List String)
  | rel (comps : List String)
deriving DecidableEq, Repr

/-- `Path(base) / p` for an absolute `base` (line 44): joining with an
absolute right operand replaces the base. -/
def joinPath (base : List String) : PyPath → List String
  | .rel cs => base ++ cs
  | .abs cs => cs

/-- Resolution of a path opened directly (line 71's `to_csv` target):
a relative path is resolved against the process working directory. -/
def resolveCwd (cwd : List String) : PyPath → List String
  | .rel cs => cwd ++ cs
  | .abs cs => cs

/-- The uncaught exception the code can raise after the loop: selecting
`[['Symbol','Close','Date']]` from a columnless frame (line 68). -/
inductive PyError where
  | keyError
deriving DecidableEq, Repr

/-- The configuration held by `CdrPrices` (`__init__`, lines 30-34). -/
structure Config where
  quicken_csv_file : PyPath
  symbols : List String
  days : Nat
deriving Repr

/-- Everything observable about one run of `load_yahoo_prices`. -/
structure RunOutcome where
  truncPath : List String
  logs : List String
  fetchCount : Nat
  result : Except PyError (List String × String)
deriving Repr

/-- `CdrPrices.load_yahoo_prices` (lines 36-72).  `scriptDir` is
`Path(__file__).parent.absolute()`, `cwd` the process working directory.
The file at `truncPath` is truncated to empty before the loop
(lines 44-47).  After the loop the report line is printed (line 67);
then, if `dfp` never acquired columns (no symbol succeeded), line 68
raises `KeyError`; otherwise the CSV text is written to the
`cwd`-resolved path (line 71). -/
def load_yahoo_prices (scriptDir cwd : List String) (cfg : Config)
    (fetch : String → FetchResult) : RunOutcome :=
  let st := runLoop fetch cfg.symbols
  { truncPath := joinPath scriptDir cfg.quicken_csv_file
    logs := st.logs ++ [finalReport cfg.symbols]
    fetchCount := st.fetchCount
    result :=
      if st.hasCols then
        Except.ok (resolveCwd cwd cfg.quicken_csv_file, csvContent st.records)
      else
        Except.error PyError.keyError }

/-- Exit status of the `__main__` driver (lines 75-84): 0 when
`load_yahoo_prices` returns normally, 1 when it raises (the interpreter
aborts with a traceback). -/
def exitCode (scriptDir cwd : List String) (cfg : Config)
    (fetch : String → FetchResult) : Nat :=
  match (load_yahoo_prices scriptDir cwd cfg fetch).result with
  | .ok _ => 0
  | .error _ => 1

/-! ## Concrete fixtures used by the witnesses and counterexamples -/

/-- An observation of 2024-05-01 with close 1.5. -/
def row1 : RawRow :=
  { date := { year := 2024, month := 5, day := 1 }
    openPrice := none, high := none, low := none
    close := some (mkRat 3 2), adjClose := none, volume := none }

/-- An observation of 2024-05-02 with close 2.0. -/
def row2 : RawRow :=
  { date := { year := 2024, month := 5, day := 2 }
    openPrice := none, high := none, low := none
    close := some (mkRat 2 1), adjClose := none, volume := none }

/-- An observation of 2024-05-02 whose closing price is missing
(pandas `NaN`). -/
def rowMissing : RawRow :=
  { date := { year := 2024, month := 5, day := 2 }
    openPrice := none, high := none, low := none
    close := none, adjClose := none, volume := none }

/-- A provider for which symbol `AAA` succeeds with two observations and
every other symbol fails with an `HTTPError`. -/
def fetchAB : String → FetchResult := fun s =>
  if s = "AAA" then .ok [row1, row2] else .err "HTTPError"

/-- A provider for which every symbol fails. -/
def fetchNone : String → FetchResult := fun _ => .err "HTTPError"

/-- A provider for which symbol `AAA` succeeds with one present close
and one missing close. -/
def fetchMissing : String → FetchResult := fun s =>
  if s = "AAA" then .ok [row1, rowMissing] else .err "HTTPError"

/-- The default configuration of `__init__` with the two-symbol list
replaced by concrete test symbols. -/
def cfgAB : Config :=
  { quicken_csv_file := PyPath.rel ["Q.csv"], symbols := ["AAA", "BBB"], days := 5 }

/-- The configuration with an empty symbol list. -/
def cfgEmpty : Config :=
  { quicken_csv_file := PyPath.rel ["Q.csv"], symbols := [], days := 5 }

/-! ## Structural lemmas about the fetch loop -/

/-- Folding the loop body over a symbol list from any starting state
appends, per symbol in list order, its records and its log lines; the
frame has columns as soon as one symbol succeeded, and every symbol
costs exactly one provider request. -/
theorem foldl_stepSymbol (fetch : String → FetchResult) (ss : List String)
    (st : LoopState) :
    ss.foldl (stepSymbol fetch) st =
      { records := st.records ++ ss.flatMap (recordsOf fetch)
        logs := st.logs ++ ss.flatMap (logsOf fetch)
        hasCols := st.hasCols || ss.any (fun s => (fetch s).isOk)
        fetchCount := st.fetchCount + ss.length } := by
  induction ss generalizing st with
  | nil => simp
  | cons s ss ih =>
    rw [List.foldl_cons, ih]
    cases h : fetch s with
    | ok rows =>
      simp [stepSymbol, recordsOf, logsOf, FetchResult.isOk, h]
      omega
    | err k =>
      simp [stepSymbol, recordsOf, logsOf, FetchResult.isOk, h]
      omega

/-- The loop state after the whole fetch loop. -/
theorem runLoop_eq (fetch : String → FetchResult) (symbols : List String) :
    runLoop fetch symbols =
      { records := symbols.flatMap (recordsOf fetch)
        logs := symbols.flatMap (logsOf fetch)
        hasCols := symbols.any (fun s => (fetch s).isOk)
        fetchCount := symbols.length } := by
  rw [runLoop, foldl_stepSymbol]
  simp

/-- Every record put into the frame by one symbol carries that symbol. -/
theorem recordsOf_symbol (fetch : String → FetchResult) (s : String) :
    ∀ r ∈ recordsOf fetch s, r.symbol = s := by
  intro r hr
  unfold recordsOf at hr
  cases h : fetch s with
  | ok rows => rw [h] at hr; rcases List.mem_map.mp hr with ⟨a, _, rfl⟩; rfl
  | err k => rw [h] at hr; cases hr

/-- A symbol whose fetch failed contributes no records. -/
theorem recordsOf_err (fetch : String → FetchResult) (s : String) (k : String)
    (h : fetch s = .err k) : recordsOf fetch s = [] := by
  unfold recordsOf; rw [h]

/-! ## Claims -/

/-- C5: for every symbol in the configured list, a failure while
fetching or transforming it is caught and logged with the error kind and
with a line naming the symbol; the loop still issues one request per
configured symbol (no failure aborts the run), and no record of a failed
symbol appears in the accumulated frame. -/
theorem c5_per_symbol_failure_isolated (fetch : String → FetchResult)
    (symbols : List String) (s k : String)
    (hs : s ∈ symbols) (hf : fetch s = .err k) :
    k ∈ (runLoop fetch symbols).logs ∧
    ("Error Retrieving Data for: " ++ s) ∈ (runLoop fetch symbols).logs ∧
    (runLoop fetch symbols).fetchCount = symbols.length ∧
    ∀ r ∈ (runLoop fetch symbols).records, r.symbol ≠ s := by
  rw [runLoop_eq]
  refine ⟨?_, ?_, rfl, ?_⟩
  · exact List.mem_flatMap.mpr ⟨s, hs, by simp [logsOf, hf]⟩
  · exact List.mem_flatMap.mpr ⟨s, hs, by simp [logsOf, hf]⟩
  · intro r hr
    rcases List.mem_flatMap.mp hr with ⟨s', _, hr'⟩
    have hsym := recordsOf_symbol fetch s' r hr'
    intro hcontra
    rw [hcontra] at hsym
    rw [hsym] at hf
    rw [recordsOf_err fetch s' k hf] at hr'
    cases hr'

/-- C5 witness: with the concrete provider `fetchAB`, the failure of
`BBB` is logged with its kind and symbol, both symbols are still
requested, and no record carries the failed symbol. -/
theorem c5_witness :
    "HTTPError" ∈ (runLoop fetchAB ["AAA", "BBB"]).logs ∧
    ("Error Retrieving Data for: " ++ "BBB") ∈ (runLoop fetchAB ["AAA", "BBB"]).logs ∧
    (runLoop fetchAB ["AAA", "BBB"]).fetchCount = 2 ∧
    ∀ r ∈ (runLoop fetchAB ["AAA", "BBB"]).records, r.symbol ≠ "BBB" := by
  have h := c5_per_symbol_failure_isolated fetchAB ["AAA", "BBB"] "BBB" "HTTPError"
    (by decide) (by decide)
  exact ⟨h.1, h.2.1, h.2.2.1, h.2.2.2⟩

/-- C6: the accumulated frame is the concatenation, in configured list
order, of each symbol's record group; each group carries its own symbol,
and when every successfully fetched series is chronologically ascending
(as the provider returns it), each group is ascending by trade date. -/
theorem c6_output_ordering (fetch : String → FetchResult) (symbols : List String)
    (hasc : ∀ s rows, fetch s = .ok rows →
      List.Chain' (fun a b => a.date.key ≤ b.date.key) rows) :
    (runLoop fetch symbols).records = symbols.flatMap (recordsOf fetch) ∧
    (∀ s, ∀ r ∈ recordsOf fetch s, r.symbol = s) ∧
    (∀ s, List.Chain' (fun a b => a.date.key ≤ b.date.key) (recordsOf fetch s)) := by
  refine ⟨by rw [runLoop_eq], recordsOf_symbol fetch, ?_⟩
  intro s
  unfold recordsOf
  cases h : fetch s with
  | ok rows =>
    rw [List.chain'_map]
    exact hasc s rows h
  | err k => exact List.chain'_nil

/-- C6 witness: with the concrete provider `fetchAB`, the frame is the
`AAA` group followed by the (empty) `BBB` group, and the `AAA` group is
ascending by date. -/
theorem c6_witness :
    (runLoop fetchAB ["AAA", "BBB"]).records =
      recordsOf fetchAB "AAA" ++ recordsOf fetchAB "BBB" ∧
    List.Chain' (fun a b => a.date.key ≤ b.date.key) (recordsOf fetchAB "AAA") := by
  have h := c6_output_ordering fetchAB ["AAA", "BBB"] (by
    intro s rows hrows
    by_cases hs : s = "AAA"
    · rw [hs] at hrows
      have : rows = [row1, row2] := by
        have : FetchResult.ok rows = FetchResult.ok [row1, row2] := by
          rw [← hrows]; decide
        cases this; rfl
      rw [this]
      exact List.chain'_pair.mpr (by decide)
    · rw [show fetchAB s = .err "HTTPError" by simp [fetchAB, hs]] at hrows
      cases hrows)
  refine ⟨?_, h.2.2 "AAA"⟩
  rw [h.1]
  decide

/-- C8 counterexample: with two configured symbols of which only one
succeeds, the report line printed after the loop says "2 symbols" while
only 1 symbol succeeded, so the reported count is not the success
count. -/
theorem c8_counterexample :
    (load_yahoo_prices ["home", "dennis"] ["home", "dennis"] cfgAB fetchAB).logs.getLast?
        = some (finalReport ["AAA", "BBB"]) ∧
    finalReport ["AAA", "BBB"] = "Loaded Prices from Yahoo for 2 symbols" ∧
    successCount fetchAB ["AAA", "BBB"] = 1 ∧
    finalReport ["AAA", "BBB"] ≠
      "Loaded Prices from Yahoo for " ++ toString (successCount fetchAB ["AAA", "BBB"])
        ++ " symbols" := by
  refine ⟨?_, by decide, by decide, by decide⟩
  rw [load_yahoo_prices]
  exact List.getLast?_concat _

/-- C8 amended: the report printed after the loop always states the
total number of configured symbols, whatever the per-symbol outcomes. -/
theorem c8_report_total (scriptDir cwd : List String) (cfg : Config)
    (fetch : String → FetchResult) :
    (load_yahoo_prices scriptDir cwd cfg fetch).logs.getLast? =
      some ("Loaded Prices from Yahoo for " ++ toString cfg.symbols.length ++ " symbols") := by
  rw [load_yahoo_prices]
  exact List.getLast?_concat _

/-- C10: with a relative configured file name, the file truncated at the
start of the run lives under the script's directory, while the file the
final CSV write targets is resolved against the working directory; the
two coincide exactly when the working directory is the script's
directory. -/
theorem c10_trunc_vs_write_path (scriptDir cwd comps : List String) (cfg : Config)
    (fetch : String → FetchResult) (hrel : cfg.quicken_csv_file = PyPath.rel comps) :
    (load_yahoo_prices scriptDir cwd cfg fetch).truncPath = scriptDir ++ comps ∧
    ∀ p c, (load_yahoo_prices scriptDir cwd cfg fetch).result = Except.ok (p, c) →
      p = cwd ++ comps ∧
      ((load_yahoo_prices scriptDir cwd cfg fetch).truncPath = p ↔ scriptDir = cwd) := by
  constructor
  · rw [load_yahoo_prices, hrel]; rfl
  · intro p c hok
    have hp : p = cwd ++ comps := by
      rw [load_yahoo_prices, hrel] at hok
      by_cases hcols : (runLoop fetch cfg.symbols).hasCols
      · simp only [hcols, if_true] at hok
        cases hok
        rfl
      · simp [hcols] at hok
    refine ⟨hp, ?_⟩
    rw [load_yahoo_prices, hrel, hp]
    constructor
    · intro h
      exact List.append_cancel_right h
    · intro h
      rw [h]
      rfl

/-- C10 witness: run from a working directory different from the script
directory; the truncated file and the written file are different paths. -/
theorem c10_witness :
    (load_yahoo_prices ["home", "dennis", "src"] ["home", "dennis"] cfgAB fetchAB).result =
      Except.ok (["home", "dennis", "Q.csv"],
        csvContent (runLoop fetchAB cfgAB.symbols).records) ∧
    (load_yahoo_prices ["home", "dennis", "src"] ["home", "dennis"] cfgAB fetchAB).truncPath ≠
      ["home", "dennis", "Q.csv"] := by
  have hok : (load_yahoo_prices ["home", "dennis", "src"] ["home", "dennis"] cfgAB fetchAB).result =
      Except.ok (["home", "dennis", "Q.csv"],
        csvContent (runLoop fetchAB cfgAB.symbols).records) := by
    rw [load_yahoo_prices]
    have : (runLoop fetchAB cfgAB.symbols).hasCols = true := by decide
    rw [this]
    rfl
  have h := c10_trunc_vs_write_path ["home", "dennis", "src"] ["home", "dennis"] ["Q.csv"]
    cfgAB fetchAB rfl
  refine ⟨hok, ?_⟩
  intro hcontra
  have := (h.2 _ _ hok).2.mp hcontra
  exact absurd this (by decide)

/-- C1 (failing input): because line 60 `df.dropna(axis=0)` discards its
result, an observation whose closing price is missing still becomes a
row: fetching `AAA` with one present close and one missing close puts
two records into the frame, and the written CSV text contains a row with
an empty `Close` field for the missing observation. -/
theorem c1_missing_close_row_kept :
    (runLoop fetchMissing ["AAA"]).records =
      [{ symbol := "AAA", close := some (mkRat 3 2), date := { year := 2024, month := 5, day := 1 } },
       { symbol := "AAA", close := none, date := { year := 2024, month := 5, day := 2 } }] ∧
    csvContent (runLoop fetchMissing ["AAA"]).records =
      "AAA,1.5,01/05/2024" ++ "AAA,,02/05/2024" := by
  constructor
  · decide
  · decide

/-- C2 (failing input): `to_csv` is called with `lineterminator=''`, so
the two records of a successful run are written back to back with no
line terminator at all: the file text contains no newline character and
is not one terminated row per record. -/
theorem c2_rows_not_terminated :
    (runLoop fetchAB ["AAA", "BBB"]).records.length = 2 ∧
    csvContent (runLoop fetchAB ["AAA", "BBB"]).records =
      "AAA,1.5,01/05/2024AAA,2.0,02/05/2024" ∧
    (csvContent (runLoop fetchAB ["AAA", "BBB"]).records).data.count '\n' = 0 := by
  refine ⟨by decide, by decide, by decide⟩

/-- C3 (failing input): when every configured symbol fails, the frame
never acquires its columns, and the column re-ordering of line 68 raises
an uncaught `KeyError`: the run aborts instead of completing, and the
final CSV write of line 71 is never reached (the result carries no
written file). -/
theorem c3_total_failure_raises :
    (load_yahoo_prices ["home", "dennis", "src"] ["home", "dennis", "src"] cfgAB fetchNone).result
      = Except.error PyError.keyError ∧
    (load_yahoo_prices ["home", "dennis", "src"] ["home", "dennis", "src"] cfgAB fetchNone).fetchCount
      = 2 := by
  exact ⟨rfl, by decide⟩

/-- C4 (failing input): with an empty symbol list the provider is never
contacted and the report line says "0 symbols", but the run does not
produce an empty output file: line 68 raises an uncaught `KeyError` on
the columnless frame before `to_csv` runs. -/
theorem c4_empty_list_crash :
    (load_yahoo_prices ["home", "dennis", "src"] ["home", "dennis", "src"] cfgEmpty fetchNone).fetchCount = 0 ∧
    (load_yahoo_prices ["home", "dennis", "src"] ["home", "dennis", "src"] cfgEmpty fetchNone).logs
      = ["Loaded Prices from Yahoo for 0 symbols"] ∧
    (load_yahoo_prices ["home", "dennis", "src"] ["home", "dennis", "src"] cfgEmpty fetchNone).result
      = Except.error PyError.keyError := by
  exact ⟨by decide, by decide, rfl⟩

/-- C9 (failing input): a run in which some symbols fail but one
succeeds still exits with status 0, but when every configured symbol
fails the uncaught `KeyError` of line 68 aborts the interpreter with a
nonzero status — the exit code is not 0 regardless of the failed-symbol
count. -/
theorem c9_total_failure_nonzero_exit :
    exitCode ["home", "dennis", "src"] ["home", "dennis", "src"] cfgAB fetchAB = 0 ∧
    exitCode ["home", "dennis", "src"] ["home", "dennis", "src"] cfgAB fetchNone = 1 := by
  constructor
  · rw [exitCode, load_yahoo_prices]
    have : (runLoop fetchAB cfgAB.symbols).hasCols = true := by decide
    rw [this]
    rfl
  · rfl

/-! ## Rendering lemmas for the Close and Date fields -/

/-- A digit character is never the decimal dot. -/
theorem digitChar_ne_dot (n : Nat) : digitChar n ≠ '.' := by
  unfold digitChar
  split_ifs <;> decide

/-- `takeWhile` over a list whose head segment satisfies the predicate
and whose next element refutes it returns exactly the head segment. -/
theorem takeWhile_head_segment {p : Char → Bool} (y : Char) (ys : List Char)
    (hy : p y = false) :
    ∀ xs : List Char, (∀ c ∈ xs, p c = true) → (xs ++ y :: ys).takeWhile p = xs := by
  intro xs
  induction xs with
  | nil =>
    intro _
    rw [List.nil_append, List.takeWhile_cons, hy]
    rfl
  | cons a l ih =>
    intro hall
    rw [List.cons_append, List.takeWhile_cons, hall a (List.mem_cons_self a l)]
    rw [if_pos rfl, ih (fun c hc => hall c (List.mem_cons_of_mem a hc))]

/-- The character list of a rendered float: sign and integer part, then
the dot, then the fractional digits. -/
theorem floatStr_data (m : ℤ) :
    (floatStr m).data =
      ((if m < 0 then "-" else "").data ++ (toString (m.natAbs / 1000)).data)
        ++ '.' :: fracChars (m.natAbs % 1000) := by
  unfold floatStr
  rw [String.data_append, String.data_append, String.data_append]
  simp [List.append_assoc]

/-- No fractional digit is a dot. -/
theorem fracChars_ne_dot (f : Nat) : ∀ c ∈ fracChars f, (c != '.') = true := by
  intro c hc
  have hdig : ∃ n, c = digitChar n := by
    unfold fracChars at hc
    split_ifs at hc <;>
      simp only [List.mem_cons, List.not_mem_nil, or_false] at hc
    · rcases hc with rfl | rfl | rfl
      exacts [⟨_, rfl⟩, ⟨_, rfl⟩, ⟨_, rfl⟩]
    · rcases hc with rfl | rfl
      exacts [⟨_, rfl⟩, ⟨_, rfl⟩]
    · exact ⟨_, hc⟩
  rcases hdig with ⟨n, rfl⟩
  exact bne_iff_ne.mpr (digitChar_ne_dot n)

/-- The fractional part of a rendered float has between one and three
digits. -/
theorem fracChars_length (f : Nat) :
    1 ≤ (fracChars f).length ∧ (fracChars f).length ≤ 3 := by
  unfold fracChars
  split_ifs <;> simp

/-- The fractional digit count of a rendered float is the length of its
fractional part. -/
theorem fracDigitCount_floatStr (m : ℤ) :
    fracDigitCount (floatStr m) = (fracChars (m.natAbs % 1000)).length := by
  unfold fracDigitCount
  rw [floatStr_data, List.reverse_append, List.reverse_cons, List.append_assoc]
  rw [List.singleton_append]
  rw [takeWhile_head_segment '.' _ (by decide) _
    (fun c hc => fracChars_ne_dot _ c (List.mem_reverse.mp hc))]
  exact List.length_reverse _

/-- The rounded thousandths value is within half a grid step of the true
value: in integer form, twice the distance between `thousandths q` (in
thousandths of the denominator scale) and `1000 * q` is at most one
denominator. -/
theorem thousandths_bound (q : ℚ) :
    2 * |thousandths q * (q.den : ℤ) - 1000 * q.num| ≤ (q.den : ℤ) := by
  have hd : (0 : ℤ) < (q.den : ℤ) := by exact_mod_cast q.den_pos
  have hfd : (1000 * q.num).fmod (q.den : ℤ) =
      1000 * q.num - (q.den : ℤ) * ((1000 * q.num).fdiv (q.den : ℤ)) :=
    Int.fmod_def _ _
  have h0 : 0 ≤ (1000 * q.num).fmod (q.den : ℤ) := Int.fmod_nonneg' _ hd
  have h1 : (1000 * q.num).fmod (q.den : ℤ) < (q.den : ℤ) := Int.fmod_lt_of_pos _ hd
  have hcomm : (q.den : ℤ) * ((1000 * q.num).fdiv (q.den : ℤ)) =
      ((1000 * q.num).fdiv (q.den : ℤ)) * (q.den : ℤ) := mul_comm _ _
  have hexp : ((1000 * q.num).fdiv (q.den : ℤ) + 1) * (q.den : ℤ) =
      ((1000 * q.num).fdiv (q.den : ℤ)) * (q.den : ℤ) + (q.den : ℤ) := by ring
  simp only [thousandths]
  split_ifs with hlt hgt hev
  · rw [abs_of_nonpos (by linarith)]
    linarith
  · rw [abs_of_nonneg (by linarith)]
    linarith
  · rw [abs_of_nonpos (by linarith)]
    linarith
  · rw [abs_of_nonneg (by linarith)]
    linarith

/-- `np.round(·, 3)` is rounding to nearest on the thousandths grid: the
rounded value differs from the true close by at most 1/2000. -/
theorem round3_close_to_value (q : ℚ) : |round3 q - q| ≤ 1 / 2000 := by
  have hb := thousandths_bound q
  have hdq : (0 : ℚ) < (q.den : ℚ) := by exact_mod_cast q.den_pos
  have hD0 : (q.den : ℚ) ≠ 0 := ne_of_gt hdq
  have hq : (q.num : ℚ) / (q.den : ℚ) = q := Rat.num_div_den q
  have key : |(thousandths q : ℚ) * (q.den : ℚ) - 1000 * (q.num : ℚ)| * 2 ≤ (q.den : ℚ) := by
    have hcast : ((2 * |thousandths q * (q.den : ℤ) - 1000 * q.num| : ℤ) : ℚ)
        ≤ (((q.den : ℤ) : ℤ) : ℚ) := by exact_mod_cast hb
    push_cast at hcast
    linarith
  have h2 : ((thousandths q : ℚ) * (q.den : ℚ) - 1000 * (q.num : ℚ)) / (1000 * (q.den : ℚ))
      = (thousandths q : ℚ) / 1000 - (q.num : ℚ) / (q.den : ℚ) := by
    field_simp
  rw [hq] at h2
  rw [round3, ← h2, abs_div,
    abs_of_pos (show (0 : ℚ) < 1000 * (q.den : ℚ) by linarith)]
  rw [div_le_div_iff₀ (by linarith) (by norm_num)]
  linarith

/-- C7 counterexample: a closing price of 100.5 is rounded to 100.5 and
rendered as the field "100.5", which has one fractional digit, not
exactly three. -/
theorem c7_counterexample :
    renderClose (some (mkRat 201 2)) = "100.5" ∧
    fracDigitCount (renderClose (some (mkRat 201 2))) = 1 := by
  exact ⟨by decide, by decide⟩

/-- C7 amended: the Close field renders the closing price rounded to the
thousandths grid (within 1/2000 of the true value) with at least one and
at most three fractional digits (trailing zeros stripped, as Python's
float `str`), and the Date field is the trade date as DD/MM/YYYY
(two-digit day, two-digit month, four-digit year, 10 characters). -/
theorem c7_field_rendering (q : ℚ) (d : Date) :
    1 ≤ fracDigitCount (renderClose (some q)) ∧
    fracDigitCount (renderClose (some q)) ≤ 3 ∧
    |round3 q - q| ≤ 1 / 2000 ∧
    renderDate d = pad2 d.day ++ "/" ++ pad2 d.month ++ "/" ++ pad4 d.year ∧
    (renderDate d).length = 10 := by
  have hfrac := fracChars_length ((thousandths q).natAbs % 1000)
  have hcount : fracDigitCount (renderClose (some q)) =
      (fracChars ((thousandths q).natAbs % 1000)).length := by
    show fracDigitCount (floatStr (thousandths q)) = _
    exact fracDigitCount_floatStr _
  refine ⟨?_, ?_, round3_close_to_value q, rfl, ?_⟩
  · rw [hcount]; exact hfrac.1
  · rw [hcount]; exact hfrac.2
  · rfl

end Cdr
